import Mathlib

/-!
Shallow embedding of `agents.py` (RedditInsight): the credential check, the
fetch pipeline (`fetch_posts`), the report pipeline (`generate_report`),
the comment generator (`generate_comment_from_best`) and the publish
function (`create_post`).

External collaborators (the PRAW platform client and the crewai agent
runtime) are modelled as oracle function parameters: a platform read that
may raise is an `Except Unit` value, an agent invocation whose
`crew.kickoff()` may raise is a `String → Option String` (`none` = the
call raised).  Python truthiness of optional strings/ints is modelled
explicitly.  Machine floats only carry parsed sentiment scores, never any
arithmetic, so they are modelled as `ℚ`.
-/

namespace RedditInsight

/-! ### Module-level credential check (agents.py lines 11-19) -/

/-- The six environment variables read by `os.getenv` at module load.
`none` models an unset variable. -/
structure Env where
  OPENAI_API_KEY : Option String
  REDDIT_CLIENT_ID : Option String
  REDDIT_CLIENT_SECRET : Option String
  REDDIT_USER_AGENT : Option String
  REDDIT_USERNAME : Option String
  REDDIT_PASSWORD : Option String
deriving DecidableEq

/-- Python truthiness of an optional string: `None` and `""` are falsy. -/
def truthy : Option String → Bool
  | none => false
  | some s => s ≠ ""

/-- `if not all([REDDIT_CLIENT_ID, ..., REDDIT_PASSWORD]): raise ValueError(...)`.
Note the checked list does not include `OPENAI_API_KEY`. -/
def credential_check (e : Env) : Except String Unit :=
  if (truthy e.REDDIT_CLIENT_ID && truthy e.REDDIT_CLIENT_SECRET &&
      truthy e.REDDIT_USER_AGENT && truthy e.REDDIT_USERNAME &&
      truthy e.REDDIT_PASSWORD) = false then
    Except.error "Please set Reddit API credentials (including username & password) in your .env file!"
  else
    Except.ok ()

/-! ### Data model for the fetch pipeline (agents.py lines 106-169) -/

/-- A platform comment handle as read from PRAW: `c.body` and
`getattr(c, "score", 0)`. -/
structure PlatformComment where
  body : String
  score : Int
deriving DecidableEq

/-- The comment dict built by the fetch comprehension:
`{"Comment Body": c.body, "Upvotes": getattr(c, "score", 0)}`. -/
structure Comment where
  commentBody : String
  upvotes : Int
deriving DecidableEq

/-- A platform post handle: title, selftext, permalink, score, thumbnail
(`none` when absent), and the flattened comment list obtained from
`post.comments.replace_more(limit=0); post.comments.list()`. -/
structure PlatformPost where
  title : String
  selftext : String
  permalink : String
  score : Int
  thumbnail : Option String
  comments : List PlatformComment
deriving DecidableEq

/-- The post record dict appended to `raw_data`. -/
structure PostRecord where
  subreddit : String
  postTitle : String
  postBody : String
  postLink : String
  postUpvotes : Int
  postThumbnail : Option String
  collectorSummary : String
  comments : List Comment
deriving DecidableEq

/-- Python `s.lower()` (ASCII-faithful): lower-case every character. -/
def pyLower (s : String) : String := String.mk (s.data.map Char.toLower)

/-- Python `s.strip()`: remove leading and trailing whitespace. -/
def pyStrip (s : String) : String :=
  String.mk (((s.data.dropWhile Char.isWhitespace).reverse.dropWhile Char.isWhitespace).reverse)

/-- Contiguous-substring test on character lists (Python `in` on strings):
the needle is a prefix of some suffix of the haystack. -/
def substrB (needle : List Char) : List Char → Bool
  | [] => needle.isEmpty
  | c :: rest => needle.isPrefixOf (c :: rest) || substrB needle rest

/-- Python `kw.lower() in body.lower()`: case-insensitive contiguous
substring test. -/
def containsKeyword (kw body : String) : Bool :=
  substrB (pyLower kw).toList (pyLower body).toList

/-- The comprehension guard
`if not keywords or any(kw.lower() in c.body.lower() for kw in keywords)`.
`not keywords` is true when the list is `None` or empty. -/
def kwFilter (keywords : Option (List String)) (c : PlatformComment) : Bool :=
  match keywords with
  | none => true
  | some ks => ks.isEmpty || ks.any (fun kw => containsKeyword kw c.body)

/-- Dict construction inside the comprehension. -/
def mkComment (c : PlatformComment) : Comment :=
  { commentBody := c.body, upvotes := c.score }

/-- The sort relation of
`sorted(filtered_comments, key=lambda x: x["Upvotes"], reverse=True)`:
descending upvotes.  Python `sorted` is stable; so is Mathlib's
`insertionSort`, with ties keeping encounter order under this relation. -/
def upvotesGE (a b : Comment) : Prop := b.upvotes ≤ a.upvotes

instance : DecidableRel upvotesGE := fun a b => Int.decLe b.upvotes a.upvotes

instance : IsTotal Comment upvotesGE := ⟨fun a b => le_total b.upvotes a.upvotes⟩

instance : IsTrans Comment upvotesGE := ⟨fun _ _ _ hab hbc => le_trans hbc hab⟩

/-- `"\n".join(f"i+1. body" ...)` over the selected comments. -/
def commentsText (cs : List Comment) : String :=
  String.intercalate "\n" (cs.enum.map (fun ic => toString (ic.1 + 1) ++ ". " ++ ic.2.commentBody))

/-- The collector prompt template (f-string at lines 133-140). -/
def collectorPrompt (sub title : String) (cs : List Comment) : String :=
  "Subreddit: " ++ sub ++ "\nPost: " ++ title ++ "\nComments:\n" ++ commentsText cs ++
  "\n\nFor each post, generate exactly:\nPost Title: <Post title>\nCollector Summary: <3-5 sentence summary>\n" ++
  "Comments:\n1. Comment Body: <first comment>\n   Upvotes: <number>\n" ++
  "2. Comment Body: <second comment>\n   Upvotes: <number>\n" ++
  "Overall Discussion Tone: <Neutral / Supportive / Critical / Mixed>"

/-- One iteration of the per-post loop body, given the collector-agent
oracle (`none` = the inner `try` block raised): filter comments by
keywords, sort descending by upvotes, keep the first `cl`, run the
collector (falling back to the literal string on failure), and assemble
the record.  `time.sleep(1)` and the debug prints have no data effect. -/
def buildRecord (collector : String → Option String) (keywords : Option (List String))
    (cl : Nat) (sub : String) (p : PlatformPost) : PostRecord :=
  let filtered_comments := (p.comments.filter (kwFilter keywords)).map mkComment
  let sorted_comments := filtered_comments.insertionSort upvotesGE
  let post_comments := sorted_comments.take cl
  let collector_text :=
    match collector (collectorPrompt sub p.title post_comments) with
    | some raw => pyStrip raw
    | none => "Collector agent failed"
  { subreddit := sub
    postTitle := p.title
    postBody := p.selftext
    postLink := "https://reddit.com" ++ p.permalink
    postUpvotes := p.score
    postThumbnail :=
      match p.thumbnail with
      | some t => if t.startsWith "http" then some t else none
      | none => none
    collectorSummary := collector_text
    comments := post_comments }

/-- Python `x or d` on an optional integer argument: `None` and `0` are
falsy and are replaced by the default. -/
def pyOrNat (x : Option Nat) (d : Nat) : Nat :=
  match x with
  | none => d
  | some n => if n = 0 then d else n

/-- The per-subreddit loop: `reddit.subreddit(sub).top(limit=post_limit)`
may raise (`Except.error`), in which case control jumps to the outer
`except` handler; otherwise every returned post is processed and appended
to the accumulator `raw_data`. -/
def fetchGo (topPosts : String → Nat → Except Unit (List PlatformPost))
    (collector : String → Option String) (keywords : Option (List String))
    (pl cl : Nat) : List String → List PostRecord → Except Unit (List PostRecord)
  | [], raw_data => Except.ok raw_data
  | sub :: rest, raw_data =>
    match topPosts sub pl with
    | Except.error e => Except.error e
    | Except.ok posts =>
      fetchGo topPosts collector keywords pl cl rest
        (raw_data ++ posts.map (buildRecord collector keywords cl sub))

/-- `fetch_posts(subreddits, keywords=None, post_limit=None, comment_limit=None)`.
The whole loop sits in one `try`; the `except` branch prints the traceback
and returns `[]` (line 169), not the accumulator. -/
def fetch_posts (topPosts : String → Nat → Except Unit (List PlatformPost))
    (collector : String → Option String)
    (subreddits : List String) (keywords : Option (List String))
    (post_limit comment_limit : Option Nat) : List PostRecord :=
  let pl := pyOrNat post_limit 2
  let cl := pyOrNat comment_limit 3
  match fetchGo topPosts collector keywords pl cl subreddits [] with
  | Except.ok raw_data => raw_data
  | Except.error _ => []

/-! ### Report pipeline (agents.py lines 172-217) -/

/-- One output row of `generate_report`. -/
structure ReportRow where
  subreddit : String
  postTitle : String
  postLink : String
  postUpvotes : Int
  collectorSummary : String
  comment : String
  commentUpvotes : Int
  sentiment : ℚ
  factVerdict : String
deriving DecidableEq

/-- The sentiment task description (line 182). -/
def sentPrompt (body : String) : String :=
  "Analyze sentiment (positive=1, neutral=0, negative=-1). Comment: " ++ body

/-- The fact-check task description (line 195). -/
def factPrompt (body : String) : String :=
  "Fact check this comment. Respond only with True, False, or Unverified:\n" ++ body

/-- One row of the report, built at lines 206-216.  `sent p = some q`
models: the sentiment crew call returned raw text `t` and
`float(t.strip()) = q`; `sent p = none` models: the call or the `float`
parse raised, leaving the initial `sentiment_score = 0.0`.
`fact p = some t` models: the fact-check crew call returned raw text `t`
(then stripped); `fact p = none` models: it raised, leaving the initial
`verdict = "Unverified"`. -/
def reportRow (sent : String → Option ℚ) (fact : String → Option String)
    (post : PostRecord) (c : Comment) : ReportRow :=
  let body := c.commentBody
  let sentiment_score : ℚ :=
    match sent (sentPrompt body) with
    | some q => q
    | none => 0
  let verdict : String :=
    match fact (factPrompt body) with
    | some raw => pyStrip raw
    | none => "Unverified"
  { subreddit := post.subreddit
    postTitle := post.postTitle
    postLink := post.postLink
    postUpvotes := post.postUpvotes
    collectorSummary := post.collectorSummary
    comment := body
    commentUpvotes := c.upvotes
    sentiment := sentiment_score
    factVerdict := verdict }

/-- `generate_report(posts_data)`: the nested loop appends one row per
comment of each post to the accumulator `report`. -/
def generate_report (sent : String → Option ℚ) (fact : String → Option String)
    (posts_data : List PostRecord) : List ReportRow :=
  posts_data.foldl
    (fun report post =>
      post.comments.foldl
        (fun report c => report ++ [reportRow sent fact post c]) report)
    []

/-! ### Comment generator (agents.py lines 85-103) -/

/-- `max(fetched_comments, key=lambda c: c.get('Upvotes', 0))` on a
non-empty list: Python `max` scans left to right and replaces the current
best only on a strictly larger key, so ties keep the earliest element. -/
def pyMaxByUpvotes (x : Comment) (xs : List Comment) : Comment :=
  xs.foldl (fun best c => if best.upvotes < c.upvotes then c else best) x

/-- The comment-generation prompt (line 90). -/
def commentPrompt (body : String) : String :=
  "Original Comment: " ++ body ++ "\nGenerate a new comment in a similar style."

/-- `generate_comment_from_best(fetched_comments)`; `oracle` is the
comment-agent crew call (`none` = it raised, caught and turned into
`return None`). -/
def generate_comment_from_best (oracle : String → Option String)
    (fetched_comments : List Comment) : Option String :=
  match fetched_comments with
  | [] => none
  | x :: xs =>
    let best_comment := pyMaxByUpvotes x xs
    let prompt := commentPrompt best_comment.commentBody
    match oracle prompt with
    | some raw => some (pyStrip raw)
    | none => none

/-! ### Publish function (agents.py lines 220-238) -/

/-- A flair template dict `{id, text}` from `subreddit.flair.link_templates`. -/
structure FlairTemplate where
  text : String
  id : String
deriving DecidableEq

/-- A created submission handle. -/
structure Submission where
  permalink : String
deriving DecidableEq

/-- The resolution loop (lines 225-229): first template whose text equals
the requested flair text case-insensitively; `flair_id` stays `None`
otherwise. -/
def resolveFlairId (templates : List FlairTemplate) (flair_text : String) : Option String :=
  match templates.find? (fun ft => pyLower ft.text == pyLower flair_text) with
  | some ft => some ft.id
  | none => none

/-- `create_post(subreddit, title, body, flair_text=None)`.
`getTemplates` models reading `subreddit_obj.flair.link_templates` (a
network call that may raise); `submit fid` models
`subreddit_obj.submit(..., flair_id=fid)` (the no-flair branch passes no
flair id, which PRAW defaults to `None`, i.e. `submit none`).  Any raise
reaches the `except` handler, which logs and returns `None`. -/
def create_post (getTemplates : Except Unit (List FlairTemplate))
    (submit : Option String → Except Unit Submission)
    (flair_text : Option String) : Option Submission :=
  let run : Except Unit Submission → Option Submission := fun r =>
    match r with
    | Except.ok s => some s
    | Except.error _ => none
  match flair_text with
  | some ft =>
    if ft = "" then run (submit none)
    else
      match getTemplates with
      | Except.error _ => none
      | Except.ok templates => run (submit (resolveFlairId templates ft))
  | none => run (submit none)

/-! ### Helper lemmas -/

/-- The effective limits computed by `x or default` are positive whenever
the default is. -/
lemma pyOrNat_pos (x : Option Nat) (d : Nat) (hd : 0 < d) : 0 < pyOrNat x d := by
  cases x with
  | none => exact hd
  | some n =>
    by_cases h : n = 0
    · simp [pyOrNat, h, hd]
    · simpa [pyOrNat, h] using Nat.pos_of_ne_zero h

/-- The inner comment loop of `generate_report` appends one row per comment. -/
lemma foldl_append_rows (sent : String → Option ℚ) (fact : String → Option String)
    (post : PostRecord) :
    ∀ (cs : List Comment) (acc : List ReportRow),
      cs.foldl (fun report c => report ++ [reportRow sent fact post c]) acc =
        acc ++ cs.map (reportRow sent fact post) := by
  intro cs
  induction cs with
  | nil => simp
  | cons c cs ih => intro acc; simp [ih]

/-- The outer post loop of `generate_report` concatenates the per-post rows. -/
lemma generate_report_go (sent : String → Option ℚ) (fact : String → Option String) :
    ∀ (posts : List PostRecord) (acc : List ReportRow),
      posts.foldl
          (fun report post =>
            post.comments.foldl
              (fun report c => report ++ [reportRow sent fact post c]) report) acc =
        acc ++ posts.flatMap (fun p => p.comments.map (reportRow sent fact p)) := by
  intro posts
  induction posts with
  | nil => simp
  | cons p ps ih =>
    intro acc
    rw [List.foldl_cons, foldl_append_rows sent fact p p.comments acc, ih]
    simp

/-- `generate_report` is the flattening of the per-post row maps. -/
lemma generate_report_eq_flatMap (sent : String → Option ℚ) (fact : String → Option String)
    (posts : List PostRecord) :
    generate_report sent fact posts =
      posts.flatMap (fun p => p.comments.map (reportRow sent fact p)) := by
  simpa using generate_report_go sent fact posts []

/-- Every record in a successful `fetchGo` result is either carried over
from the accumulator or built by `buildRecord`. -/
lemma fetchGo_mem (topPosts : String → Nat → Except Unit (List PlatformPost))
    (collector : String → Option String) (keywords : Option (List String)) (pl cl : Nat) :
    ∀ (subs : List String) (acc out : List PostRecord),
      fetchGo topPosts collector keywords pl cl subs acc = Except.ok out →
      ∀ r ∈ out, r ∈ acc ∨ ∃ sub p, r = buildRecord collector keywords cl sub p := by
  intro subs
  induction subs with
  | nil =>
    intro acc out h r hr
    cases h
    exact Or.inl hr
  | cons s rest ih =>
    intro acc out h r hr
    unfold fetchGo at h
    cases htop : topPosts s pl with
    | error e => rw [htop] at h; cases h
    | ok posts =>
      rw [htop] at h
      rcases ih _ _ h r hr with hacc | hbuilt
      · rcases List.mem_append.mp hacc with hl | hrmap
        · exact Or.inl hl
        · rcases List.mem_map.mp hrmap with ⟨p, _, hp⟩
          exact Or.inr ⟨s, p, hp.symm⟩
      · exact Or.inr hbuilt

/-- Every record returned by `fetch_posts` is a `buildRecord` with the
effective comment limit. -/
lemma fetch_posts_mem (topPosts : String → Nat → Except Unit (List PlatformPost))
    (collector : String → Option String) (subreddits : List String)
    (keywords : Option (List String)) (post_limit comment_limit : Option Nat)
    (r : PostRecord)
    (hr : r ∈ fetch_posts topPosts collector subreddits keywords post_limit comment_limit) :
    ∃ sub p, r = buildRecord collector keywords (pyOrNat comment_limit 3) sub p := by
  simp only [fetch_posts] at hr
  cases h : fetchGo topPosts collector keywords (pyOrNat post_limit 2) (pyOrNat comment_limit 3)
      subreddits [] with
  | error e => rw [h] at hr; cases hr
  | ok out =>
    rw [h] at hr
    rcases fetchGo_mem topPosts collector keywords _ _ subreddits [] out h r hr with hacc | hb
    · cases hacc
    · exact hb

/-- If some subreddit in the list makes `topPosts` raise, `fetchGo` ends
in the exception branch. -/
lemma fetchGo_error (topPosts : String → Nat → Except Unit (List PlatformPost))
    (collector : String → Option String) (keywords : Option (List String)) (pl cl : Nat) :
    ∀ (subs : List String) (acc : List PostRecord),
      (∃ sub ∈ subs, topPosts sub pl = Except.error ()) →
      fetchGo topPosts collector keywords pl cl subs acc = Except.error () := by
  intro subs
  induction subs with
  | nil => intro acc h; rcases h with ⟨sub, hmem, _⟩; cases hmem
  | cons s rest ih =>
    intro acc h
    unfold fetchGo
    cases htop : topPosts s pl with
    | error e => cases e; rfl
    | ok posts =>
      rcases h with ⟨sub, hmem, herr⟩
      rcases List.mem_cons.mp hmem with rfl | hrest
      · rw [htop] at herr; cases herr
      · exact ih _ ⟨sub, hrest, herr⟩

/-- The comment list of every built record is a truncation of the
descending insertion sort of the filtered comments. -/
lemma buildRecord_comments (collector : String → Option String)
    (keywords : Option (List String)) (cl : Nat) (sub : String) (p : PlatformPost) :
    (buildRecord collector keywords cl sub p).comments =
      (((p.comments.filter (kwFilter keywords)).map mkComment).insertionSort upvotesGE).take cl :=
  rfl

/-! ### C2: startup credential validation -/

/-- C2 (counterexample): with every platform credential set but the
model-provider API key unset, the module-level check succeeds — the
process starts, contrary to the claim that a missing model-provider API
key is fatal at startup. -/
theorem credential_check_missing_api_key_still_starts :
    credential_check
      { OPENAI_API_KEY := none
        REDDIT_CLIENT_ID := some "id"
        REDDIT_CLIENT_SECRET := some "secret"
        REDDIT_USER_AGENT := some "agent"
        REDDIT_USERNAME := some "user"
        REDDIT_PASSWORD := some "pw" } = Except.ok () := by
  rfl

/-- C2 (amended): the startup check validates exactly the five platform
credentials (client id, client secret, user agent, username, password):
it succeeds iff all five are set and non-empty, and the model-provider
API key never affects it. -/
theorem credential_check_validates_reddit_only (e : Env) (k : Option String) :
    (credential_check e = Except.ok () ↔
      (truthy e.REDDIT_CLIENT_ID ∧ truthy e.REDDIT_CLIENT_SECRET ∧
       truthy e.REDDIT_USER_AGENT ∧ truthy e.REDDIT_USERNAME ∧
       truthy e.REDDIT_PASSWORD))
    ∧ credential_check { e with OPENAI_API_KEY := k } = credential_check e := by
  constructor
  · unfold credential_check
    split <;> rename_i h <;> simp_all
  · rfl

/-! ### C10: falsy limit arguments are replaced by the defaults -/

/-- C10: `post_limit or 2` / `comment_limit or 3` treat `None` and `0`
alike: both are replaced by the defaults, the effective limits are always
positive, and a call passing 0 behaves exactly like one passing the
defaults — zero posts per forum or zero comments per post cannot be
requested through these parameters. -/
theorem fetch_posts_falsy_limits_defaulted
    (topPosts : String → Nat → Except Unit (List PlatformPost))
    (collector : String → Option String) (subreddits : List String)
    (keywords : Option (List String)) :
    fetch_posts topPosts collector subreddits keywords none none =
      fetch_posts topPosts collector subreddits keywords (some 2) (some 3)
    ∧ fetch_posts topPosts collector subreddits keywords (some 0) (some 0) =
      fetch_posts topPosts collector subreddits keywords (some 2) (some 3)
    ∧ ∀ post_limit comment_limit : Option Nat,
        0 < pyOrNat post_limit 2 ∧ 0 < pyOrNat comment_limit 3 :=
  ⟨rfl, rfl, fun pl cl => ⟨pyOrNat_pos pl 2 (by decide), pyOrNat_pos cl 3 (by decide)⟩⟩

/-! ### C1: failure mid-loop discards the accumulated records -/

/-- C1 (counterexample): the platform read succeeds for forum "a" (one
post, so one record is accumulated, as the single-forum run shows) and
raises for forum "b"; the two-forum run nevertheless returns the empty
sequence, not the non-empty accumulated prefix — the `except` branch at
line 169 returns `[]`, not `raw_data`. -/
theorem fetch_posts_midloop_failure_discards_accumulated :
    fetch_posts
        (fun sub _ => if sub = "a" then
          Except.ok [{ title := "t", selftext := "", permalink := "/p", score := 5,
                       thumbnail := none, comments := [] }]
         else Except.error ())
        (fun _ => none) ["a", "b"] none none none = []
    ∧ (fetch_posts
        (fun sub _ => if sub = "a" then
          Except.ok [{ title := "t", selftext := "", permalink := "/p", score := 5,
                       thumbnail := none, comments := [] }]
         else Except.error ())
        (fun _ => none) ["a"] none none none).length = 1 := by
  exact ⟨rfl, rfl⟩

/-- C1 (amended): if the platform read raises for any forum in the list,
`fetch_posts` catches the exception, logs it, and returns the empty
sequence — discarding every record accumulated before the failure. -/
theorem fetch_posts_error_returns_empty
    (topPosts : String → Nat → Except Unit (List PlatformPost))
    (collector : String → Option String) (subreddits : List String)
    (keywords : Option (List String)) (post_limit comment_limit : Option Nat)
    (h : ∃ sub ∈ subreddits, topPosts sub (pyOrNat post_limit 2) = Except.error ()) :
    fetch_posts topPosts collector subreddits keywords post_limit comment_limit = [] := by
  simp only [fetch_posts]
  rw [fetchGo_error topPosts collector keywords (pyOrNat post_limit 2)
    (pyOrNat comment_limit 3) subreddits [] h]

/-- C1 (witness for the amended theorem): a concrete run in which the
single forum's read raises returns the empty sequence. -/
theorem fetch_posts_error_returns_empty_witness :
    fetch_posts (fun _ _ => Except.error ()) (fun _ => none) ["a"] none none none = [] :=
  fetch_posts_error_returns_empty (fun _ _ => Except.error ()) (fun _ => none)
    ["a"] none none none ⟨"a", by simp, rfl⟩

/-! ### C6: comment truncation and ordering -/

/-- C6 (counterexample): with `comment_limit = 0` the Python `or`-default
silently replaces the limit by 3, so a post with one comment yields a
record whose comment list has length 1, violating "length at most
`commentLimit`" for `commentLimit = 0`. -/
theorem fetch_posts_comment_limit_zero_not_respected :
    ((fetch_posts
        (fun _ _ => Except.ok [{ title := "t", selftext := "", permalink := "/p", score := 5,
                                 thumbnail := none, comments := [{ body := "c", score := 1 }] }])
        (fun _ => none) ["s"] none none (some 0)).map
      (fun r => r.comments.length)) = [1]
    ∧ ¬(1 ≤ 0) := by
  exact ⟨rfl, by decide⟩

/-- C6 (amended): every record returned by `fetch_posts` has at most
`pyOrNat comment_limit 3` comments — the requested limit when it is a
positive number, else the default 3 — and the comment list is sorted in
descending order of upvotes. -/
theorem fetch_posts_comments_bounded_and_sorted
    (topPosts : String → Nat → Except Unit (List PlatformPost))
    (collector : String → Option String) (subreddits : List String)
    (keywords : Option (List String)) (post_limit comment_limit : Option Nat)
    (r : PostRecord)
    (hr : r ∈ fetch_posts topPosts collector subreddits keywords post_limit comment_limit) :
    r.comments.length ≤ pyOrNat comment_limit 3
    ∧ r.comments.Pairwise upvotesGE := by
  rcases fetch_posts_mem topPosts collector subreddits keywords post_limit comment_limit r hr
    with ⟨sub, p, rfl⟩
  rw [buildRecord_comments]
  constructor
  · exact List.length_take_le _ _
  · exact List.Pairwise.sublist (List.take_sublist _ _)
      (List.sorted_insertionSort upvotesGE _)

/-- C6 (witness for the amended theorem): a concrete record with two
comments satisfies the bound and the descending order. -/
theorem fetch_posts_comments_bounded_and_sorted_witness :
    (buildRecord (fun _ => none) none (pyOrNat (some 3) 3) "s"
        { title := "t", selftext := "", permalink := "/p", score := 5, thumbnail := none,
          comments := [{ body := "lo", score := 1 }, { body := "hi", score := 7 }] }).comments.length ≤
      pyOrNat (some 3) 3
    ∧ (buildRecord (fun _ => none) none (pyOrNat (some 3) 3) "s"
        { title := "t", selftext := "", permalink := "/p", score := 5, thumbnail := none,
          comments := [{ body := "lo", score := 1 }, { body := "hi", score := 7 }] }).comments.Pairwise
        upvotesGE :=
  fetch_posts_comments_bounded_and_sorted
    (fun _ _ => Except.ok [{ title := "t", selftext := "", permalink := "/p", score := 5,
                             thumbnail := none,
                             comments := [{ body := "lo", score := 1 },
                                          { body := "hi", score := 7 }] }])
    (fun _ => none) ["s"] none none (some 3)
    (buildRecord (fun _ => none) none (pyOrNat (some 3) 3) "s"
      { title := "t", selftext := "", permalink := "/p", score := 5, thumbnail := none,
        comments := [{ body := "lo", score := 1 }, { body := "hi", score := 7 }] })
    (by simp [fetch_posts, fetchGo])

/-! ### C7: keyword filtering -/

/-- C7: with a non-empty keyword list, every comment of every returned
record contains at least one keyword as a case-insensitive substring of
its body; with no keyword list, the comprehension guard excludes nothing. -/
theorem fetch_posts_keyword_filtering
    (topPosts : String → Nat → Except Unit (List PlatformPost))
    (collector : String → Option String) (subreddits : List String)
    (post_limit comment_limit : Option Nat) :
    (∀ (ks : List String), ks ≠ [] →
      ∀ r ∈ fetch_posts topPosts collector subreddits (some ks) post_limit comment_limit,
        ∀ c ∈ r.comments, ∃ kw ∈ ks, containsKeyword kw c.commentBody = true)
    ∧ ∀ (l : List PlatformComment), l.filter (kwFilter none) = l := by
  constructor
  · intro ks hks r hr c hc
    rcases fetch_posts_mem topPosts collector subreddits (some ks) post_limit comment_limit r hr
      with ⟨sub, p, rfl⟩
    rw [buildRecord_comments] at hc
    have hc2 := (List.mem_insertionSort upvotesGE).mp (List.mem_of_mem_take hc)
    rcases List.mem_map.mp hc2 with ⟨pc, hpc, rfl⟩
    have hguard := (List.mem_filter.mp hpc).2
    unfold kwFilter at hguard
    rcases Bool.or_eq_true_iff.mp hguard with hemp | hany
    · exact absurd (List.isEmpty_iff.mp hemp) hks
    · rcases List.any_eq_true.mp hany with ⟨kw, hkw, hck⟩
      exact ⟨kw, hkw, hck⟩
  · intro l
    exact List.filter_eq_self.mpr (fun a _ => rfl)

/-- C7 (witness): a concrete fetched record keeps exactly the comment
containing the keyword, and the theorem yields the matching keyword. -/
theorem fetch_posts_keyword_filtering_witness :
    ∃ kw ∈ ["c"], containsKeyword kw "abc" = true :=
  (fetch_posts_keyword_filtering
      (fun _ _ => Except.ok [{ title := "t", selftext := "", permalink := "/p", score := 5,
                               thumbnail := none,
                               comments := [{ body := "abc", score := 1 },
                                            { body := "xy", score := 2 }] }])
      (fun _ => none) ["s"] none none).1 ["c"] (by decide)
    (buildRecord (fun _ => none) (some ["c"]) (pyOrNat none 3) "s"
      { title := "t", selftext := "", permalink := "/p", score := 5, thumbnail := none,
        comments := [{ body := "abc", score := 1 }, { body := "xy", score := 2 }] })
    (by simp [fetch_posts, fetchGo])
    { commentBody := "abc", upvotes := 1 }
    (by simp [buildRecord_comments, kwFilter, containsKeyword, pyLower, substrB,
              List.insertionSort, List.orderedInsert, pyOrNat, mkComment, List.take])

/-! ### C5: one report row per comment, in order -/

/-- C5: `generate_report` emits exactly the concatenation, in post order
then comment order, of one row per comment; its length is the total
comment count, and every row is built from a comment of its own post
record (comment body and upvotes taken from that comment). -/
theorem generate_report_one_row_per_comment (sent : String → Option ℚ)
    (fact : String → Option String) (posts : List PostRecord) :
    generate_report sent fact posts =
      posts.flatMap (fun p => p.comments.map (reportRow sent fact p))
    ∧ (generate_report sent fact posts).length =
        (posts.map (fun p => p.comments.length)).sum
    ∧ ∀ r ∈ generate_report sent fact posts, ∃ p ∈ posts, ∃ c ∈ p.comments,
        r = reportRow sent fact p c ∧ r.comment = c.commentBody
          ∧ r.commentUpvotes = c.upvotes := by
  refine ⟨generate_report_eq_flatMap sent fact posts, ?_, ?_⟩
  · rw [generate_report_eq_flatMap, List.length_flatMap]
    simp only [Function.comp_def, List.length_map]
  · intro r hr
    rw [generate_report_eq_flatMap] at hr
    rcases List.mem_flatMap.mp hr with ⟨p, hp, hrm⟩
    rcases List.mem_map.mp hrm with ⟨c, hc, rfl⟩
    exact ⟨p, hp, c, hc, rfl, rfl, rfl⟩

/-- C5 (witness): in a one-post, one-comment run the single row is built
from that post's single comment. -/
theorem generate_report_one_row_per_comment_witness :
    ∃ p ∈ [({ subreddit := "s", postTitle := "t", postBody := "", postLink := "l",
              postUpvotes := 1, postThumbnail := none, collectorSummary := "sum",
              comments := [{ commentBody := "h", upvotes := 3 }] } : PostRecord)],
      ∃ c ∈ p.comments,
        reportRow (fun _ => some 1) (fun _ => some "True")
            { subreddit := "s", postTitle := "t", postBody := "", postLink := "l",
              postUpvotes := 1, postThumbnail := none, collectorSummary := "sum",
              comments := [{ commentBody := "h", upvotes := 3 }] }
            { commentBody := "h", upvotes := 3 } =
          reportRow (fun _ => some 1) (fun _ => some "True") p c
        ∧ (reportRow (fun _ => some 1) (fun _ => some "True")
              { subreddit := "s", postTitle := "t", postBody := "", postLink := "l",
                postUpvotes := 1, postThumbnail := none, collectorSummary := "sum",
                comments := [{ commentBody := "h", upvotes := 3 }] }
              { commentBody := "h", upvotes := 3 }).comment = c.commentBody
        ∧ (reportRow (fun _ => some 1) (fun _ => some "True")
              { subreddit := "s", postTitle := "t", postBody := "", postLink := "l",
                postUpvotes := 1, postThumbnail := none, collectorSummary := "sum",
                comments := [{ commentBody := "h", upvotes := 3 }] }
              { commentBody := "h", upvotes := 3 }).commentUpvotes = c.upvotes :=
  (generate_report_one_row_per_comment (fun _ => some 1) (fun _ => some "True")
      [{ subreddit := "s", postTitle := "t", postBody := "", postLink := "l",
         postUpvotes := 1, postThumbnail := none, collectorSummary := "sum",
         comments := [{ commentBody := "h", upvotes := 3 }] }]).2.2
    (reportRow (fun _ => some 1) (fun _ => some "True")
      { subreddit := "s", postTitle := "t", postBody := "", postLink := "l",
        postUpvotes := 1, postThumbnail := none, collectorSummary := "sum",
        comments := [{ commentBody := "h", upvotes := 3 }] }
      { commentBody := "h", upvotes := 3 })
    (by simp [generate_report])

/-! ### C3: sentiment score -/

/-- C3 (counterexample): if the sentiment agent's text parses to 2.0
(e.g. it answers "2"), the emitted row carries sentiment 2.0 — the code
never clamps the parsed value to [-1, 1]. -/
theorem generate_report_sentiment_out_of_range :
    (generate_report (fun _ => some 2) (fun _ => none)
        [{ subreddit := "s", postTitle := "t", postBody := "", postLink := "l",
           postUpvotes := 1, postThumbnail := none, collectorSummary := "sum",
           comments := [{ commentBody := "h", upvotes := 3 }] }]).map
      (fun r => r.sentiment) = [2]
    ∧ ¬((2 : ℚ) ≤ 1) :=
  ⟨rfl, by norm_num⟩

/-- C3 (amended): each row's sentiment is exactly 0.0 whenever the
sentiment call fails or its result does not parse as a number, and is the
parsed value — whatever it is, with no clamping to [-1, 1] — otherwise. -/
theorem generate_report_sentiment_default (sent : String → Option ℚ)
    (fact : String → Option String) (posts : List PostRecord)
    (r : ReportRow) (hr : r ∈ generate_report sent fact posts) :
    (sent (sentPrompt r.comment) = none → r.sentiment = 0)
    ∧ ∀ q : ℚ, sent (sentPrompt r.comment) = some q → r.sentiment = q := by
  rw [generate_report_eq_flatMap] at hr
  rcases List.mem_flatMap.mp hr with ⟨p, _, hrm⟩
  rcases List.mem_map.mp hrm with ⟨c, _, rfl⟩
  constructor
  · intro h
    simp only [reportRow] at h ⊢
    rw [h]
  · intro q h
    simp only [reportRow] at h ⊢
    rw [h]

/-- C3 (witness for the amended theorem): with a failing sentiment call
the single row's sentiment is 0.0. -/
theorem generate_report_sentiment_default_witness :
    (reportRow (fun _ => none) (fun _ => none)
      { subreddit := "s", postTitle := "t", postBody := "", postLink := "l",
        postUpvotes := 1, postThumbnail := none, collectorSummary := "sum",
        comments := [{ commentBody := "h", upvotes := 3 }] }
      { commentBody := "h", upvotes := 3 }).sentiment = 0 :=
  (generate_report_sentiment_default (fun _ => none) (fun _ => none)
    [{ subreddit := "s", postTitle := "t", postBody := "", postLink := "l",
       postUpvotes := 1, postThumbnail := none, collectorSummary := "sum",
       comments := [{ commentBody := "h", upvotes := 3 }] }]
    (reportRow (fun _ => none) (fun _ => none)
      { subreddit := "s", postTitle := "t", postBody := "", postLink := "l",
        postUpvotes := 1, postThumbnail := none, collectorSummary := "sum",
        comments := [{ commentBody := "h", upvotes := 3 }] }
      { commentBody := "h", upvotes := 3 })
    (by simp [generate_report])).1 rfl

/-! ### C4: fact verdict -/

/-- C4 (counterexample): if the fact-check agent answers "Maybe", the
emitted row's verdict is the literal "Maybe" — the code never restricts
the verdict to the three expected tokens. -/
theorem generate_report_verdict_not_in_enum :
    (generate_report (fun _ => none) (fun _ => some "Maybe")
        [{ subreddit := "s", postTitle := "t", postBody := "", postLink := "l",
           postUpvotes := 1, postThumbnail := none, collectorSummary := "sum",
           comments := [{ commentBody := "h", upvotes := 3 }] }]).map
      (fun r => r.factVerdict) = ["Maybe"]
    ∧ ("Maybe" : String) ∉ (["True", "False", "Unverified"] : List String) :=
  ⟨rfl, by decide⟩

/-- C4 (amended): each row's fact verdict is exactly "Unverified"
whenever the fact-check call fails, and otherwise is the agent's
stripped text, whatever it is — not constrained to the three tokens. -/
theorem generate_report_verdict_default (sent : String → Option ℚ)
    (fact : String → Option String) (posts : List PostRecord)
    (r : ReportRow) (hr : r ∈ generate_report sent fact posts) :
    (fact (factPrompt r.comment) = none → r.factVerdict = "Unverified")
    ∧ ∀ t : String, fact (factPrompt r.comment) = some t → r.factVerdict = pyStrip t := by
  rw [generate_report_eq_flatMap] at hr
  rcases List.mem_flatMap.mp hr with ⟨p, _, hrm⟩
  rcases List.mem_map.mp hrm with ⟨c, _, rfl⟩
  constructor
  · intro h
    simp only [reportRow] at h ⊢
    rw [h]
  · intro t h
    simp only [reportRow] at h ⊢
    rw [h]

/-- C4 (witness for the amended theorem): with a failing fact-check call
the single row's verdict is "Unverified". -/
theorem generate_report_verdict_default_witness :
    (reportRow (fun _ => none) (fun _ => none)
      { subreddit := "s", postTitle := "t", postBody := "", postLink := "l",
        postUpvotes := 1, postThumbnail := none, collectorSummary := "sum",
        comments := [{ commentBody := "h", upvotes := 3 }] }
      { commentBody := "h", upvotes := 3 }).factVerdict = "Unverified" :=
  (generate_report_verdict_default (fun _ => none) (fun _ => none)
    [{ subreddit := "s", postTitle := "t", postBody := "", postLink := "l",
       postUpvotes := 1, postThumbnail := none, collectorSummary := "sum",
       comments := [{ commentBody := "h", upvotes := 3 }] }]
    (reportRow (fun _ => none) (fun _ => none)
      { subreddit := "s", postTitle := "t", postBody := "", postLink := "l",
        postUpvotes := 1, postThumbnail := none, collectorSummary := "sum",
        comments := [{ commentBody := "h", upvotes := 3 }] }
      { commentBody := "h", upvotes := 3 })
    (by simp [generate_report])).1 rfl

/-! ### C8: comment generation from the best comment -/

/-- Python's `max` with a key returns the first element attaining the
maximum: the list splits around the result, everything before it strictly
below, everything after it at most equal. -/
lemma pyMaxByUpvotes_first_max :
    ∀ (xs : List Comment) (x : Comment),
      ∃ l1 l2, x :: xs = l1 ++ pyMaxByUpvotes x xs :: l2
        ∧ (∀ c ∈ l1, c.upvotes < (pyMaxByUpvotes x xs).upvotes)
        ∧ (∀ c ∈ l2, c.upvotes ≤ (pyMaxByUpvotes x xs).upvotes) := by
  intro xs
  induction xs with
  | nil =>
    intro x
    exact ⟨[], [], rfl, by simp, by simp⟩
  | cons y ys ih =>
    intro x
    have hstep : pyMaxByUpvotes x (y :: ys) =
        pyMaxByUpvotes (if x.upvotes < y.upvotes then y else x) ys := rfl
    by_cases h : x.upvotes < y.upvotes
    · rw [hstep, if_pos h]
      rcases ih y with ⟨l1, l2, heq, h1, h2⟩
      refine ⟨x :: l1, l2, by rw [List.cons_append, ← heq], ?_, h2⟩
      intro c hc
      rcases List.mem_cons.mp hc with rfl | hc1
      · -- `x` is strictly below `y`, and `y` is bounded by the result
        cases l1 with
        | nil =>
          have : y = pyMaxByUpvotes y ys := by
            simpa using congrArg (fun l => l.head?) heq
          exact this ▸ h
        | cons z l1t =>
          have hz : y = z := by
            simpa using congrArg (fun l => l.head?) heq
          have hy : y ∈ z :: l1t := by rw [← hz]; exact List.mem_cons_self y l1t
          exact lt_trans h (h1 y hy)
      · exact h1 c hc1
    · rw [hstep, if_neg h]
      push_neg at h
      rcases ih x with ⟨l1, l2, heq, h1, h2⟩
      cases l1 with
      | nil =>
        have hx : x = pyMaxByUpvotes x ys := by
          simpa using congrArg (fun l => l.head?) heq
        have hys : ys = l2 := by
          simpa [← hx] using congrArg (fun l => l.tail) heq
        refine ⟨[], y :: ys, by simp [← hx], by simp, ?_⟩
        intro c hc
        rcases List.mem_cons.mp hc with rfl | hc2
        · exact hx ▸ h
        · exact h2 c (hys ▸ hc2)
      | cons z l1t =>
        have hz : x = z := by
          simpa using congrArg (fun l => l.head?) heq
        have hys : ys = l1t ++ pyMaxByUpvotes x ys :: l2 := by
          simpa using congrArg (fun l => l.tail) heq
        have hxlt : x.upvotes < (pyMaxByUpvotes x ys).upvotes := by
          nth_rewrite 1 [hz]
          exact h1 z (List.mem_cons_self z l1t)
        refine ⟨x :: y :: l1t, l2,
          by simpa using congrArg (fun t => x :: y :: t) hys, ?_, h2⟩
        intro c hc
        rcases List.mem_cons.mp hc with rfl | hc1
        · exact hxlt
        rcases List.mem_cons.mp hc1 with rfl | hc2
        · exact lt_of_le_of_lt h hxlt
        · exact h1 c (List.mem_cons_of_mem z hc2)

/-- C8: `generate_comment_from_best` returns `None` on an empty list;
on a non-empty list it selects the comment with maximum upvotes, ties
broken in favor of the earliest in encounter order, builds the prompt
from that comment's body, and returns the stripped agent text, or `None`
when the agent call raised. -/
theorem generate_comment_from_best_selects_first_max (oracle : String → Option String) :
    generate_comment_from_best oracle [] = none
    ∧ ∀ (cs : List Comment), cs ≠ [] →
        ∃ best l1 l2, cs = l1 ++ best :: l2
          ∧ (∀ c ∈ l1, c.upvotes < best.upvotes)
          ∧ (∀ c ∈ l2, c.upvotes ≤ best.upvotes)
          ∧ generate_comment_from_best oracle cs =
              (oracle (commentPrompt best.commentBody)).map pyStrip := by
  refine ⟨rfl, ?_⟩
  intro cs hcs
  match cs with
  | [] => exact absurd rfl hcs
  | x :: xs =>
    rcases pyMaxByUpvotes_first_max xs x with ⟨l1, l2, heq, h1, h2⟩
    refine ⟨pyMaxByUpvotes x xs, l1, l2, heq, h1, h2, ?_⟩
    show (match oracle (commentPrompt (pyMaxByUpvotes x xs).commentBody) with
      | some raw => some (pyStrip raw)
      | none => none) = _
    cases oracle (commentPrompt (pyMaxByUpvotes x xs).commentBody) <;> rfl

/-- C8 (witness): on `[(body "a", 1 upvote), (body "b", 5 upvotes)]` the
selected comment is the one with body "b", and the oracle's stripped
answer is returned. -/
theorem generate_comment_from_best_selects_first_max_witness :
    ∃ best l1 l2,
      ([{ commentBody := "a", upvotes := 1 }, { commentBody := "b", upvotes := 5 }] :
          List Comment) = l1 ++ best :: l2
      ∧ (∀ c ∈ l1, c.upvotes < best.upvotes)
      ∧ (∀ c ∈ l2, c.upvotes ≤ best.upvotes)
      ∧ generate_comment_from_best (fun _ => some " fresh take ")
          [{ commentBody := "a", upvotes := 1 }, { commentBody := "b", upvotes := 5 }] =
          ((fun _ => some " fresh take ") (commentPrompt best.commentBody)).map pyStrip :=
  (generate_comment_from_best_selects_first_max (fun _ => some " fresh take ")).2
    [{ commentBody := "a", upvotes := 1 }, { commentBody := "b", upvotes := 5 }]
    (by decide)

/-! ### C9: publishing with an unmatched flair -/

/-- C9: when the requested flair text matches no template of the forum
(case-insensitively), `create_post` still submits — with no flair id —
and returns the created submission; and when the template listing or the
submission raises, it returns `None` instead of propagating. -/
theorem create_post_unmatched_flair (templates : List FlairTemplate)
    (submit : Option String → Except Unit Submission) (ft : String) (s : Submission)
    (hft : ft ≠ "") (hmatch : resolveFlairId templates ft = none) :
    (submit none = Except.ok s →
      create_post (Except.ok templates) submit (some ft) = some s)
    ∧ (submit none = Except.error () →
      create_post (Except.ok templates) submit (some ft) = none)
    ∧ create_post (Except.error ()) submit (some ft) = none := by
  refine ⟨?_, ?_, ?_⟩
  · intro h
    simp [create_post, hft, hmatch, h]
  · intro h
    simp [create_post, hft, hmatch, h]
  · simp [create_post, hft]

/-- C9 (witness): with one flair template "News" and the unmatched
request "AMA", the post is submitted without a flair and the submission
is returned. -/
theorem create_post_unmatched_flair_witness :
    create_post (Except.ok [({ text := "News", id := "f1" } : FlairTemplate)])
      (fun _ => Except.ok { permalink := "/new" }) (some "AMA") =
      some ({ permalink := "/new" } : Submission) :=
  (create_post_unmatched_flair [{ text := "News", id := "f1" }]
    (fun _ => Except.ok { permalink := "/new" }) "AMA" { permalink := "/new" }
    (by decide) (by rfl)).1 rfl

end RedditInsight
